import Mathlib

/-!
Shallow embedding of the RoomVerse booking lifecycle and inventory engine.

The definitions below translate the relevant backend source:
* `src/backend/routes/bookings.js` — the five lifecycle routes
  (create, confirm, reject, cancel, payment verify);
* `src/backend/models/Booking.js` — the booking schema, its pre-save hook,
  `canBeCancelled` and `calculateRefund`;
* the `Hostel` schema (rooms with `totalRooms`/`availableRooms`, pricing,
  food options, `currentOccupancy`, status and verification flags).

Mongoose document saves run the schema validators (`min` bounds, enum
membership); a save of a document violating them throws, which the route
handlers surface as a 500 response.  Saves are therefore modelled as
`Option`-valued: `none` models the thrown validation error, and each route
threads the state exactly as far as the source had persisted it when the
throw happens.

JavaScript numbers are IEEE-754 binary64.  Identifiers and currency amounts
are modelled as `Nat`/`Int` (exact for integers below 2^53); the one place
where genuine non-integer float arithmetic happens — `calculateRefund`
multiplying by the literals 0.9 / 0.7 / 0.5 / 0.2 — is modelled exactly,
by round-to-nearest-even on 53-bit significands (`fmulFloor`).
-/

namespace RoomVerse

/-- Room categories of the `roomType` enum. -/
inductive RoomType
  | Single | Double | Triple | Quad
deriving DecidableEq, Repr

/-- Booking `status` enum from `Booking.js`. -/
inductive BStatus
  | Pending | Confirmed | Paid | CheckedIn | Active
  | CheckedOut | Completed | Cancelled | Rejected | Expired
deriving DecidableEq, Repr

/-- Hostel `status` enum. -/
inductive HStatus
  | Active | Inactive | UnderReview | Rejected
deriving DecidableEq, Repr

/-- Per-room-type inventory record inside a hostel (`rooms` array entries). -/
structure RoomInfo where
  type : RoomType
  totalRooms : Int
  availableRooms : Int
deriving DecidableEq, Repr

/-- Hostel `foodOptions` sub-document (the fields the booking routes read). -/
structure HFood where
  available : Bool
  monthlyCost : Int
deriving DecidableEq, Repr

/-- Hostel `pricing` sub-document (the fields the booking routes read). -/
structure HPricing where
  monthlyRent : Int
  securityDeposit : Int
  maintenanceCharges : Int
deriving DecidableEq, Repr

/-- The slice of the `Hostel` document used by the booking routes. -/
structure Hostel where
  id : Nat
  owner : Nat
  status : HStatus
  isVerified : Bool
  pricing : HPricing
  foodOptions : HFood
  rooms : List RoomInfo
  currentOccupancy : Int
deriving DecidableEq, Repr

/-- Booking `pricing` sub-document. -/
structure BPricing where
  monthlyRent : Int
  securityDeposit : Int
  maintenanceCharges : Int
  totalAmount : Int
  paidAmount : Int
  pendingAmount : Int
deriving DecidableEq, Repr

/-- Booking `foodOptions` sub-document (fields the claims reason about). -/
structure BFood where
  selected : Bool
  monthlyCost : Int
deriving DecidableEq, Repr

/-- Booking `payment` sub-document. -/
structure Payment where
  method : String
  transactionId : Option String
  paymentDate : Option Int
  razorpayOrderId : Option String
  razorpayPaymentId : Option String
  razorpaySignature : Option String
deriving DecidableEq, Repr

/-- Booking `cancellation` sub-document.  `cancelledBy` is stored as the raw
string the route supplies; the schema enum restricts persisted values to
`Student`, `Owner`, `Admin` (checked in `bookingValid`). -/
structure Cancellation where
  reason : String
  cancelledBy : String
  refundAmount : Int
  refundStatus : String
deriving DecidableEq, Repr

/-- The slice of the `Booking` document used by the lifecycle routes.
Dates are epoch milliseconds. -/
structure Booking where
  id : Nat
  student : Nat
  hostel : Nat
  owner : Nat
  roomType : RoomType
  checkInDate : Int
  checkOutDate : Int
  duration : Int
  pricing : BPricing
  foodOptions : BFood
  status : BStatus
  payment : Payment
  confirmedAt : Option Int
  paidAt : Option Int
  cancelledAt : Option Int
  cancellation : Option Cancellation
deriving DecidableEq, Repr

/-!  ### Exact binary64 refund arithmetic

`calculateRefund` (Booking.js) computes `Math.floor(paidAmount * pct)` where
`pct` is one of the double literals `0.9`, `0.7`, `0.5`, `0.2`.  Those
literals denote the exact rationals `m / 2^e` below:

* `0.9 = 8106479329266893 / 2^53`
* `0.7 = 3152519739159347 / 2^52`
* `0.5 = 1 / 2^1`
* `0.2 = 3602879701896397 / 2^54`

For an integer `paid < 2^53` (hence exactly representable), the double
product is the exact rational `paid * m / 2^e` rounded to 53 significant
bits with ties to even, and `Math.floor` then truncates. -/

/-- Structural (fuel-indexed) binary bit length: for `n < 2^fuel`,
`bitLenAux fuel n` is the number of binary digits of `n`. -/
def bitLenAux : Nat → Nat → Nat
  | 0, _ => 0
  | fuel + 1, n => if n = 0 then 0 else bitLenAux fuel (n / 2) + 1

/-- Bit length of a natural number below `2^200` (all products arising from
the refund computation are far below this). -/
def bitLen (n : Nat) : Nat := bitLenAux 200 n

/-- `fmulFloor paid m e` = `Math.floor` of the binary64 product of the
integer `paid` and the double `m / 2^e`: round the integer `paid * m` to 53
significant bits (nearest, ties to even), then take the floor of the result
scaled by `2^(-e)`. -/
def fmulFloor (paid m e : Nat) : Nat :=
  let P := paid * m
  if P = 0 then 0
  else
    let L := bitLen P
    if L ≤ 53 then P / 2 ^ e
    else
      let shift := L - 53
      let q := P / 2 ^ shift
      let r := P % 2 ^ shift
      let half := 2 ^ (shift - 1)
      let q' := if half < r ∨ (r = half ∧ q % 2 = 1) then q + 1 else q
      if e ≤ shift then q' * 2 ^ (shift - e) else q' / 2 ^ (e - shift)

/-- `calculateRefund` from Booking.js, with the days-until-check-in value
taken as an argument (the spec's `computeRefund(paidAmount, daysUntilCheckIn)`
signature): pick the tier percentage, multiply in binary64, floor. -/
def computeRefund (paid daysUntilCheckIn : Int) : Int :=
  if 30 < daysUntilCheckIn then (fmulFloor paid.toNat 8106479329266893 53 : Nat)
  else if 15 < daysUntilCheckIn then (fmulFloor paid.toNat 3152519739159347 52 : Nat)
  else if 7 < daysUntilCheckIn then (fmulFloor paid.toNat 1 1 : Nat)
  else if 0 < daysUntilCheckIn then (fmulFloor paid.toNat 3602879701896397 54 : Nat)
  else 0

/-- `Math.ceil((checkInDate - now) / (1000*60*60*24))` from `calculateRefund`,
with the division taken exactly (the sub-millisecond float error of the JS
division is not observable at the integer day boundaries used here). -/
def daysUntil (checkInDate now : Int) : Int :=
  (checkInDate - now + 86400000 - 1).ediv 86400000

/-- `booking.calculateRefund()` evaluated at time `now`. -/
def calculateRefund (b : Booking) (now : Int) : Int :=
  computeRefund b.pricing.paidAmount (daysUntil b.checkInDate now)

/-- `booking.canBeCancelled()` from Booking.js. -/
def canBeCancelled (b : Booking) : Bool :=
  b.status = BStatus.Pending ∨ b.status = BStatus.Confirmed ∨ b.status = BStatus.Paid

/-!  ### Persistence layer -/

/-- The persisted collections, plus the id the next inserted booking gets
(Mongo assigns fresh `_id`s). -/
structure St where
  bookings : List Booking
  hostels : List Hostel
  nextId : Nat
deriving DecidableEq, Repr

/-- Request context: the Razorpay key secret and HMAC-SHA256, abstracted as
an arbitrary keyed digest function (secret → message → hex digest). -/
structure Config where
  secret : String
  hmac : String → String → String

/-- The authenticated caller that `protect` attaches to the request. -/
structure Caller where
  id : Nat
  role : String
deriving DecidableEq, Repr

/-- `Booking.findById`. -/
def findBooking (s : St) (id : Nat) : Option Booking :=
  s.bookings.find? (fun b => b.id = id)

/-- `Hostel.findById`. -/
def findHostel (s : St) (id : Nat) : Option Hostel :=
  s.hostels.find? (fun h => h.id = id)

/-- Schema validators on one `rooms` entry: `totalRooms` min 1,
`availableRooms` min 0. -/
def roomValid (r : RoomInfo) : Bool :=
  1 ≤ r.totalRooms ∧ 0 ≤ r.availableRooms

/-- Hostel document validation run by `hostel.save()`: every room entry
satisfies its `min` bounds and `currentOccupancy` has min 0. -/
def hostelValid (h : Hostel) : Bool :=
  h.rooms.all roomValid ∧ 0 ≤ h.currentOccupancy

/-- `hostel.save()`: validation failure throws (`none`); success replaces
the stored document. -/
def saveHostel (s : St) (h : Hostel) : Option St :=
  if hostelValid h then
    some { s with hostels := s.hostels.map (fun x => if x.id = h.id then h else x) }
  else none

/-- The booking schema pre-save hook: recompute
`pricing.pendingAmount = totalAmount - paidAmount`. -/
def preSave (b : Booking) : Booking :=
  { b with pricing :=
      { b.pricing with pendingAmount := b.pricing.totalAmount - b.pricing.paidAmount } }

/-- Booking document validation run by `booking.save()`: `min` bounds on the
pricing fields and duration, and enum membership for
`cancellation.cancelledBy`. -/
def bookingValid (b : Booking) : Bool :=
  (0 ≤ b.pricing.monthlyRent ∧ 0 ≤ b.pricing.securityDeposit ∧
   0 ≤ b.pricing.maintenanceCharges ∧ 0 ≤ b.pricing.totalAmount ∧
   0 ≤ b.pricing.paidAmount ∧ 0 ≤ b.pricing.pendingAmount ∧
   1 ≤ b.duration ∧ 0 ≤ b.foodOptions.monthlyCost : Bool) &&
  (match b.cancellation with
   | none => true
   | some c =>
       ((c.cancelledBy = "Student" ∨ c.cancelledBy = "Owner" ∨ c.cancelledBy = "Admin") ∧
        0 ≤ c.refundAmount ∧
        (c.refundStatus = "Pending" ∨ c.refundStatus = "Processed" ∨
         c.refundStatus = "Failed" ∨ c.refundStatus = "Not Applicable") : Bool))

/-- `booking.save()` on an already-stored booking: pre-save hook, then
validation (`none` = thrown validation error), then replace. -/
def saveBooking (s : St) (b : Booking) : Option St :=
  let b := preSave b
  if bookingValid b then
    some { s with bookings := s.bookings.map (fun x => if x.id = b.id then b else x) }
  else none

/-- `booking.save()` on a freshly constructed booking: pre-save hook,
validation, then insert with the next fresh id. -/
def insertBooking (s : St) (b : Booking) : Option St :=
  let b := preSave b
  if bookingValid b then
    some { s with bookings := s.bookings ++ [b], nextId := s.nextId + 1 }
  else none

/-- Route responses, by HTTP status and message class. -/
inductive Resp
  | created            -- 201
  | ok                 -- 200
  | validationFailed   -- 400 express-validator / date checks
  | notFound           -- 404
  | forbidden          -- 403 authorize middleware / ownership checks
  | hostelUnavailable  -- 400 hostel not Active+verified
  | roomUnavailable    -- 400 no rooms of the requested type
  | duplicateActive    -- 400 existing active booking
  | invalidTransition  -- 400 "cannot be ... in current status"
  | invalidSignature   -- 400 invalid payment signature
  | serverError        -- 500 (thrown validation error caught by the handler)
deriving DecidableEq, Repr

/-- Statuses the duplicate-booking query matches:
`{ status: { $in: ['Pending','Confirmed','Paid','CheckedIn','Active'] } }`. -/
def activeStatuses : List BStatus :=
  [BStatus.Pending, BStatus.Confirmed, BStatus.Paid, BStatus.CheckedIn, BStatus.Active]

/-- Request body of `POST /api/bookings`. -/
structure CreateReq where
  hostelId : Nat
  roomType : RoomType
  checkInDate : Int
  checkOutDate : Int
  duration : Int
  foodSelected : Bool
deriving DecidableEq, Repr

/-- Mutate the first `rooms` entry of the given type (the
`findIndex` / in-place update pattern of the cancel and verify routes). -/
def modifyRoom (t : RoomType) (f : RoomInfo → RoomInfo) : List RoomInfo → List RoomInfo
  | [] => []
  | r :: rs => if r.type = t then f r :: rs else r :: modifyRoom t f rs

/-- `POST /api/bookings` — create a booking (student only).  Checks, in
source order: role, validator bounds, date sanity, hostel existence, hostel
availability, room availability, duplicate active booking; then prices the
stay and persists a `Pending` booking.  The hostel document is never
written. -/
def createBooking (c : Caller) (req : CreateReq) (today : Int) (s : St) : Resp × St :=
  if c.role ≠ "Student" then (Resp.forbidden, s)
  else if req.duration < 1 then (Resp.validationFailed, s)
  else if req.checkInDate < today then (Resp.validationFailed, s)
  else if req.checkOutDate ≤ req.checkInDate then (Resp.validationFailed, s)
  else
    match findHostel s req.hostelId with
    | none => (Resp.notFound, s)
    | some hostel =>
      if hostel.status ≠ HStatus.Active ∨ hostel.isVerified = false then
        (Resp.hostelUnavailable, s)
      else
        match hostel.rooms.find? (fun room => room.type = req.roomType) with
        | none => (Resp.roomUnavailable, s)
        | some roomInfo =>
          if roomInfo.availableRooms ≤ 0 then (Resp.roomUnavailable, s)
          else if (s.bookings.find? (fun b =>
                    b.student = c.id ∧ b.status ∈ activeStatuses)).isSome then
            (Resp.duplicateActive, s)
          else
            let monthlyRent := hostel.pricing.monthlyRent
            let securityDeposit := hostel.pricing.securityDeposit
            let maintenanceCharges := hostel.pricing.maintenanceCharges
            let base := monthlyRent * req.duration + securityDeposit +
                        maintenanceCharges * req.duration
            let foodCost := if req.foodSelected ∧ hostel.foodOptions.available then
                              hostel.foodOptions.monthlyCost * req.duration
                            else 0
            let totalAmount := base + foodCost
            let booking : Booking :=
              { id := s.nextId
                student := c.id
                hostel := req.hostelId
                owner := hostel.owner
                roomType := req.roomType
                checkInDate := req.checkInDate
                checkOutDate := req.checkOutDate
                duration := req.duration
                pricing :=
                  { monthlyRent, securityDeposit, maintenanceCharges,
                    totalAmount, paidAmount := 0, pendingAmount := 0 }
                foodOptions :=
                  if req.foodSelected then
                    { selected := true, monthlyCost := hostel.foodOptions.monthlyCost }
                  else { selected := false, monthlyCost := 0 }
                status := BStatus.Pending
                payment :=
                  { method := "Online", transactionId := none, paymentDate := none,
                    razorpayOrderId := none, razorpayPaymentId := none,
                    razorpaySignature := none }
                confirmedAt := none, paidAt := none, cancelledAt := none,
                cancellation := none }
            match insertBooking s booking with
            | none => (Resp.serverError, s)
            | some s' => (Resp.created, s')

/-- `PUT /api/bookings/:id/confirm` — owner confirms a `Pending` booking. -/
def confirmBooking (c : Caller) (bookingId : Nat) (now : Int) (s : St) : Resp × St :=
  if c.role ≠ "HostelOwner" then (Resp.forbidden, s)
  else
    match findBooking s bookingId with
    | none => (Resp.notFound, s)
    | some b =>
      if b.owner ≠ c.id then (Resp.forbidden, s)
      else if b.status ≠ BStatus.Pending then (Resp.invalidTransition, s)
      else
        match saveBooking s { b with status := BStatus.Confirmed, confirmedAt := some now } with
        | none => (Resp.serverError, s)
        | some s' => (Resp.ok, s')

/-- `PUT /api/bookings/:id/reject` — owner rejects a `Pending` booking,
recording a cancellation sub-record; the hostel document is never written. -/
def rejectBooking (c : Caller) (bookingId : Nat) (reason : Option String) (now : Int)
    (s : St) : Resp × St :=
  if c.role ≠ "HostelOwner" then (Resp.forbidden, s)
  else
    match findBooking s bookingId with
    | none => (Resp.notFound, s)
    | some b =>
      if b.owner ≠ c.id then (Resp.forbidden, s)
      else if b.status ≠ BStatus.Pending then (Resp.invalidTransition, s)
      else
        let b' := { b with
          status := BStatus.Rejected
          cancellation := some
            { reason := reason.getD "Rejected by owner", cancelledBy := "Owner",
              refundAmount := 0, refundStatus := "Not Applicable" }
          cancelledAt := some now }
        match saveBooking s b' with
        | none => (Resp.serverError, s)
        | some s' => (Resp.ok, s')

/-- `PUT /api/bookings/:id/cancel` — student, owner or admin cancels a
cancellable booking; computes the refund when something was paid, then
unconditionally increments the room's availability. -/
def cancelBooking (c : Caller) (bookingId : Nat) (reason : String) (now : Int)
    (s : St) : Resp × St :=
  if reason = "" then (Resp.validationFailed, s)
  else
    match findBooking s bookingId with
    | none => (Resp.notFound, s)
    | some b =>
      if ¬(b.student = c.id ∨ b.owner = c.id ∨ c.role = "Admin") then (Resp.forbidden, s)
      else if canBeCancelled b = false then (Resp.invalidTransition, s)
      else
        let refundAmount := if 0 < b.pricing.paidAmount then calculateRefund b now else 0
        let b' := { b with
          status := BStatus.Cancelled
          cancellation := some
            { reason, cancelledBy := c.role, refundAmount,
              refundStatus := if 0 < refundAmount then "Pending" else "Not Applicable" }
          cancelledAt := some now }
        match saveBooking s b' with
        | none => (Resp.serverError, s)
        | some s1 =>
          match findHostel s1 b.hostel with
          | none => (Resp.ok, s1)
          | some hostel =>
            match hostel.rooms.find? (fun room => room.type = b.roomType) with
            | none => (Resp.ok, s1)
            | some _ =>
              let hostel' := { hostel with rooms := (modifyRoom b.roomType
                  (fun r => { r with availableRooms := r.availableRooms + 1 }) hostel.rooms) }
              match saveHostel s1 hostel' with
              | none => (Resp.serverError, s1)
              | some s2 => (Resp.ok, s2)

/-- `POST /api/bookings/:id/payment/verify` — student submits the gateway
callback; on a matching HMAC the booking is marked `Paid` and the room's
availability decremented. -/
def verifyPayment (cfg : Config) (c : Caller) (bookingId : Nat)
    (orderId paymentId signature : String) (now : Int) (s : St) : Resp × St :=
  if c.role ≠ "Student" then (Resp.forbidden, s)
  else if paymentId = "" ∨ orderId = "" ∨ signature = "" then (Resp.validationFailed, s)
  else
    match findBooking s bookingId with
    | none => (Resp.notFound, s)
    | some b =>
      if b.student ≠ c.id then (Resp.forbidden, s)
      else if cfg.hmac cfg.secret (orderId ++ "|" ++ paymentId) ≠ signature then
        (Resp.invalidSignature, s)
      else
        let b' := { b with
          status := BStatus.Paid
          pricing := { b.pricing with
            paidAmount := b.pricing.totalAmount, pendingAmount := 0 }
          payment := { b.payment with
            method := "Online", transactionId := some paymentId,
            paymentDate := some now, razorpayPaymentId := some paymentId,
            razorpaySignature := some signature }
          paidAt := some now }
        match saveBooking s b' with
        | none => (Resp.serverError, s)
        | some s1 =>
          match findHostel s1 b.hostel with
          | none => (Resp.ok, s1)
          | some hostel =>
            match hostel.rooms.find? (fun room => room.type = b.roomType) with
            | none => (Resp.ok, s1)
            | some _ =>
              let hostel' := { hostel with
                rooms := modifyRoom b.roomType
                  (fun r => { r with availableRooms := r.availableRooms - 1 }) hostel.rooms
                currentOccupancy := hostel.currentOccupancy + 1 }
              match saveHostel s1 hostel' with
              | none => (Resp.serverError, s1)
              | some s2 => (Resp.ok, s2)

/-- One booking-lifecycle request. -/
inductive Op
  | create (c : Caller) (req : CreateReq) (today : Int)
  | confirm (c : Caller) (bookingId : Nat) (now : Int)
  | reject (c : Caller) (bookingId : Nat) (reason : Option String) (now : Int)
  | cancel (c : Caller) (bookingId : Nat) (reason : String) (now : Int)
  | verify (c : Caller) (bookingId : Nat) (orderId paymentId signature : String) (now : Int)

/-- Dispatch one request to its handler. -/
def step (cfg : Config) (s : St) : Op → Resp × St
  | Op.create c req today => createBooking c req today s
  | Op.confirm c bid now => confirmBooking c bid now s
  | Op.reject c bid reason now => rejectBooking c bid reason now s
  | Op.cancel c bid reason now => cancelBooking c bid reason now s
  | Op.verify c bid oid pid sig now => verifyPayment cfg c bid oid pid sig now s

/-- The state after one request (response discarded). -/
def exec (cfg : Config) (s : St) (op : Op) : St := (step cfg s op).2

/-- The state after a sequence of requests. -/
def run (cfg : Config) (s : St) (ops : List Op) : St := ops.foldl (exec cfg) s

/-- Number of stored bookings currently holding a reservation (status in the
duplicate-check set) for the given hostel and room type. -/
def reservedCount (s : St) (hostelId : Nat) (t : RoomType) : Nat :=
  (s.bookings.filter (fun b =>
    b.hostel = hostelId ∧ b.roomType = t ∧ b.status ∈ activeStatuses)).length

/-- Observer: the stored `availableRooms` count for a hostel and room type
(`none` when the hostel or the room-type entry is absent). -/
def availOf (s : St) (hostelId : Nat) (t : RoomType) : Option Int :=
  match findHostel s hostelId with
  | none => none
  | some h => (h.rooms.find? (fun r => r.type = t)).map RoomInfo.availableRooms

/-!  ### Concrete test fixtures (used by witnesses and counterexamples) -/

/-- A concrete request context; the digest function is an injective stand-in
for HMAC-SHA256 (the claims never depend on collision behaviour). -/
def cfgA : Config := ⟨"sec", fun k m => "H(" ++ k ++ "," ++ m ++ ")"⟩

/-- A student caller. -/
def stud : Caller := ⟨20, "Student"⟩

/-- The owner of hostel 1. -/
def ownr : Caller := ⟨10, "HostelOwner"⟩

/-- An active, verified hostel with one `Single` room-type entry. -/
def hostelA (total avail : Int) : Hostel :=
  { id := 1, owner := 10, status := HStatus.Active, isVerified := true,
    pricing := ⟨1000, 500, 0⟩, foodOptions := ⟨false, 0⟩,
    rooms := [⟨RoomType.Single, total, avail⟩], currentOccupancy := 0 }

/-- Empty store holding only `hostelA 1 1`. -/
def stA : St := ⟨[], [hostelA 1 1], 0⟩

/-- A well-formed create request against hostel 1 (check-in 10 days, and
check-out 20 days, after epoch). -/
def reqA : CreateReq := ⟨1, RoomType.Single, 864000000, 1728000000, 6, false⟩

/-- The digest a genuine gateway callback would carry for order `ord` and
payment `pay` under `cfgA`. -/
def sigA : String := cfgA.hmac cfgA.secret ("ord" ++ "|" ++ "pay")

/-- A stored booking of student 20 at hostel 1 in the given status with the
given paid amount (check-in 20 days after epoch, total 6500). -/
def bookingAt (st : BStatus) (paid : Int) : Booking :=
  { id := 5, student := 20, hostel := 1, owner := 10,
    roomType := RoomType.Single,
    checkInDate := 1728000000, checkOutDate := 4320000000, duration := 6,
    pricing := ⟨1000, 500, 0, 6500, paid, 6500 - paid⟩,
    foodOptions := ⟨false, 0⟩, status := st,
    payment := ⟨"Online", none, none, none, none, none⟩,
    confirmedAt := none, paidAt := none, cancelledAt := none,
    cancellation := none }

/-- Store holding one booking (in the given status, with the given paid
amount) and `hostelA total avail`. -/
def stWith (st : BStatus) (paid total avail : Int) : St :=
  ⟨[bookingAt st paid], [hostelA total avail], 6⟩

/-- State after student 20 successfully creates a booking in `stA`;
holds one `Pending` booking with id 0. -/
def st1 : St := run cfgA stA [Op.create stud reqA 0]

/-- The booking persisted by that create. -/
def bX : Booking := (findBooking st1 0).getD (bookingAt BStatus.Pending 0)

/-- Store whose only hostel has no free `Single` rooms. -/
def stB : St := ⟨[], [hostelA 1 0], 0⟩

/-- The per-room inventory floor: every stored room has a non-negative
`availableRooms` count. -/
def roomsNonneg (s : St) : Prop :=
  ∀ h ∈ s.hostels, ∀ r ∈ h.rooms, 0 ≤ r.availableRooms

instance decRoomsNonneg (s : St) : Decidable (roomsNonneg s) :=
  inferInstanceAs (Decidable (∀ h ∈ s.hostels, ∀ r ∈ h.rooms, 0 ≤ r.availableRooms))

/-!  ## Theorems

Helper lemmas first (arithmetic bounds for the binary64 rounding, state-shape
lemmas for the handlers), then one theorem per claim with its witness or
counterexample. -/

theorem bitLenAux_zero (fuel : Nat) : bitLenAux fuel 0 = 0 := by
  cases fuel <;> rfl

/-- For `n < 2^fuel`, `bitLenAux fuel n` brackets `n` between consecutive
powers of two. -/
theorem bitLenAux_bounds : ∀ fuel n, n ≠ 0 → n < 2 ^ fuel →
    2 ^ (bitLenAux fuel n - 1) ≤ n ∧ n < 2 ^ bitLenAux fuel n
  | 0, n, h0, hlt => by simp at hlt; omega
  | fuel + 1, n, h0, hlt => by
    rw [bitLenAux, if_neg h0]
    by_cases h2 : n / 2 = 0
    · have h1 : n = 1 := by omega
      subst h1
      rw [h2, bitLenAux_zero]
      norm_num
    · have hpow : 2 ^ (fuel + 1) = 2 * 2 ^ fuel := by ring
      have hdiv : n / 2 < 2 ^ fuel := by omega
      obtain ⟨hl, hu⟩ := bitLenAux_bounds fuel (n / 2) h2 hdiv
      have hL1 : 1 ≤ bitLenAux fuel (n / 2) := by
        rcases Nat.eq_zero_or_pos (bitLenAux fuel (n / 2)) with h | h
        · rw [h] at hu; norm_num at hu; omega
        · exact h
      have e1 : 2 ^ bitLenAux fuel (n / 2) = 2 * 2 ^ (bitLenAux fuel (n / 2) - 1) := by
        conv_lhs => rw [show bitLenAux fuel (n / 2) = (bitLenAux fuel (n / 2) - 1) + 1 by omega]
        ring
      have e2 : 2 ^ (bitLenAux fuel (n / 2) + 1) = 2 * 2 ^ bitLenAux fuel (n / 2) := by ring
      rw [Nat.add_sub_cancel]
      omega

theorem bitLen_bounds {n : Nat} (h0 : n ≠ 0) (h : n < 2 ^ 200) :
    2 ^ (bitLen n - 1) ≤ n ∧ n < 2 ^ bitLen n :=
  bitLenAux_bounds 200 n h0 h


theorem fmulFloor_le (n m e : Nat) (hm : m * (2 ^ 52 + 1) ≤ 2 ^ (52 + e))
    (hP : n * m < 2 ^ 200) : fmulFloor n m e ≤ n := by
  simp only [fmulFloor]
  by_cases h0 : n * m = 0
  · simp [h0]
  · rw [if_neg h0]
    obtain ⟨hlo, hhi⟩ := bitLen_bounds h0 hP
    have hepos : (0:Nat) < 2 ^ e := Nat.pos_pow_of_pos e (by norm_num)
    have hfin : (n * m + n * m / 2 ^ 52) / 2 ^ e ≤ n := by
      have h2 : n * m * (2 ^ 52 + 1) ≤ n * 2 ^ (52 + e) := by
        calc n * m * (2 ^ 52 + 1) = n * (m * (2 ^ 52 + 1)) := by ring
        _ ≤ n * 2 ^ (52 + e) := Nat.mul_le_mul_left _ hm
      have h3 : (n * m + n * m / 2 ^ 52) * 2 ^ 52 ≤ n * m * (2 ^ 52 + 1) := by
        have hd := Nat.div_mul_le_self (n * m) (2 ^ 52)
        have : (n * m + n * m / 2 ^ 52) * 2 ^ 52
            = n * m * 2 ^ 52 + (n * m / 2 ^ 52) * 2 ^ 52 := by ring
        omega
      have h4 : n * 2 ^ (52 + e) = n * 2 ^ e * 2 ^ 52 := by
        rw [pow_add]; ring
      have h5 : (n * m + n * m / 2 ^ 52) * 2 ^ 52 ≤ n * 2 ^ e * 2 ^ 52 := by omega
      have h6 : n * m + n * m / 2 ^ 52 ≤ n * 2 ^ e :=
        Nat.le_of_mul_le_mul_right h5 (Nat.pos_pow_of_pos 52 (by norm_num))
      calc (n * m + n * m / 2 ^ 52) / 2 ^ e ≤ n * 2 ^ e / 2 ^ e :=
            Nat.div_le_div_right h6
      _ = n := Nat.mul_div_cancel _ hepos
    by_cases hL : bitLen (n * m) ≤ 53
    · rw [if_pos hL]
      calc n * m / 2 ^ e ≤ (n * m + n * m / 2 ^ 52) / 2 ^ e :=
            Nat.div_le_div_right (by omega)
      _ ≤ n := hfin
    · rw [if_neg hL]
      set P := n * m with hPdef
      set L := bitLen P with hLdef
      set shift := L - 53 with hshiftdef
      have hsh1 : 1 ≤ shift := by omega
      have hshpos : (0:Nat) < 2 ^ shift := Nat.pos_pow_of_pos shift (by norm_num)
      have hshiftle : 2 ^ shift ≤ P / 2 ^ 52 := by
        have hpd : 2 ^ (L - 1) / 2 ^ 52 = 2 ^ (L - 1 - 52) :=
          Nat.pow_div (by omega) (by norm_num)
        have hse : L - 1 - 52 = shift := by omega
        calc 2 ^ shift = 2 ^ (L - 1) / 2 ^ 52 := by rw [hpd, hse]
        _ ≤ P / 2 ^ 52 := Nat.div_le_div_right hlo
      have hmid : ∀ x, x ≤ P / 2 ^ shift + 1 →
          (if e ≤ shift then x * 2 ^ (shift - e) else x / 2 ^ (e - shift))
            ≤ (P + 2 ^ shift) / 2 ^ e := by
        intro x hx
        have hq1 : P / 2 ^ shift + 1 = (P + 2 ^ shift) / 2 ^ shift := by
          rw [Nat.add_div_right _ hshpos]
        split
        · next he =>
          have hsplit : (2:Nat) ^ shift = 2 ^ e * 2 ^ (shift - e) := by
            rw [← pow_add]; congr 1; omega
          calc x * 2 ^ (shift - e) ≤ (P / 2 ^ shift + 1) * 2 ^ (shift - e) :=
                Nat.mul_le_mul_right _ hx
          _ = (P + 2 ^ shift) / 2 ^ shift * 2 ^ (shift - e) := by rw [hq1]
          _ = (P + 2 ^ shift) / 2 ^ e / 2 ^ (shift - e) * 2 ^ (shift - e) := by
                rw [Nat.div_div_eq_div_mul, ← hsplit]
          _ ≤ (P + 2 ^ shift) / 2 ^ e := Nat.div_mul_le_self _ _
        · next he =>
          have hsplit : (2:Nat) ^ e = 2 ^ shift * 2 ^ (e - shift) := by
            rw [← pow_add]; congr 1; omega
          calc x / 2 ^ (e - shift) ≤ (P / 2 ^ shift + 1) / 2 ^ (e - shift) :=
                Nat.div_le_div_right hx
          _ = (P + 2 ^ shift) / 2 ^ shift / 2 ^ (e - shift) := by rw [hq1]
          _ = (P + 2 ^ shift) / 2 ^ e := by rw [Nat.div_div_eq_div_mul, ← hsplit]
      have hend : (P + 2 ^ shift) / 2 ^ e ≤ (P + P / 2 ^ 52) / 2 ^ e :=
        Nat.div_le_div_right (by omega)
      refine le_trans (le_trans ?_ hend) hfin
      apply hmid
      split <;> omega



theorem insertBooking_some {s : St} {b : Booking} {s' : St}
    (h : insertBooking s b = some s') :
    s'.bookings = s.bookings ++ [preSave b] ∧ s'.hostels = s.hostels := by
  simp only [insertBooking] at h
  split at h
  · cases h; exact ⟨rfl, rfl⟩
  · cases h

theorem saveBooking_some {s : St} {b : Booking} {s' : St}
    (h : saveBooking s b = some s') :
    s'.bookings = s.bookings.map (fun x => if x.id = (preSave b).id then preSave b else x) ∧
    s'.hostels = s.hostels ∧ s'.nextId = s.nextId := by
  simp only [saveBooking] at h
  split at h
  · cases h; exact ⟨rfl, rfl, rfl⟩
  · cases h

theorem saveHostel_some {s : St} {h : Hostel} {s' : St}
    (hs : saveHostel s h = some s') :
    hostelValid h = true ∧
    s'.hostels = s.hostels.map (fun x => if x.id = h.id then h else x) ∧
    s'.bookings = s.bookings ∧ s'.nextId = s.nextId := by
  simp only [saveHostel] at hs
  split at hs
  · next hv => cases hs; exact ⟨hv, rfl, rfl, rfl⟩
  · cases hs

theorem roomsNonneg_of_hostels_eq {s s' : St} (h : s'.hostels = s.hostels)
    (inv : roomsNonneg s) : roomsNonneg s' := by
  intro x hx; rw [h] at hx; exact inv x hx

theorem roomsNonneg_saveHostel {s : St} {h : Hostel} {s' : St}
    (inv : roomsNonneg s) (hs : saveHostel s h = some s') : roomsNonneg s' := by
  obtain ⟨hv, he, -, -⟩ := saveHostel_some hs
  intro x hx r hr
  rw [he] at hx
  simp only [List.mem_map] at hx
  obtain ⟨y, hy, hyx⟩ := hx
  by_cases hid : y.id = h.id
  · rw [if_pos hid] at hyx
    subst hyx
    simp only [hostelValid, Bool.and_eq_true, List.all_eq_true, roomValid,
      decide_eq_true_eq] at hv
    exact (hv.1 r hr).2
  · rw [if_neg hid] at hyx
    subst hyx
    exact inv y hy r hr



/-- `createBooking` never writes the hostel collection. -/
theorem createBooking_hostels (c : Caller) (req : CreateReq) (today : Int) (s : St) :
    ((createBooking c req today s).2).hostels = s.hostels := by
  simp only [createBooking]
  repeat' split
  all_goals first
    | rfl
    | (next heq => exact (insertBooking_some heq).2)

/-- `confirmBooking` never writes the hostel collection. -/
theorem confirmBooking_hostels (c : Caller) (bid : Nat) (now : Int) (s : St) :
    ((confirmBooking c bid now s).2).hostels = s.hostels := by
  simp only [confirmBooking]
  repeat' split
  all_goals first
    | rfl
    | (next heq => exact (saveBooking_some heq).2.1)

/-- `rejectBooking` never writes the hostel collection. -/
theorem rejectBooking_hostels (c : Caller) (bid : Nat) (reason : Option String)
    (now : Int) (s : St) :
    ((rejectBooking c bid reason now s).2).hostels = s.hostels := by
  simp only [rejectBooking]
  repeat' split
  all_goals first
    | rfl
    | (next heq => exact (saveBooking_some heq).2.1)

/-- `cancelBooking` preserves the non-negativity of all inventory counts. -/
theorem cancelBooking_nonneg (c : Caller) (bid : Nat) (reason : String) (now : Int)
    {s : St} (inv : roomsNonneg s) :
    roomsNonneg ((cancelBooking c bid reason now s).2) := by
  simp only [cancelBooking]
  repeat' split
  all_goals first
    | exact inv
    | (exact roomsNonneg_of_hostels_eq (saveBooking_some (by assumption)).2.1 inv)
    | (exact roomsNonneg_saveHostel
        (roomsNonneg_of_hostels_eq (saveBooking_some (by assumption)).2.1 inv)
        (by assumption))

/-- `verifyPayment` preserves the non-negativity of all inventory counts:
a decrement that would drive a count negative fails the schema validation,
so the hostel write is rejected. -/
theorem verifyPayment_nonneg (cfg : Config) (c : Caller) (bid : Nat)
    (oid pid sig : String) (now : Int) {s : St} (inv : roomsNonneg s) :
    roomsNonneg ((verifyPayment cfg c bid oid pid sig now s).2) := by
  simp only [verifyPayment]
  repeat' split
  all_goals first
    | exact inv
    | (exact roomsNonneg_of_hostels_eq (saveBooking_some (by assumption)).2.1 inv)
    | (exact roomsNonneg_saveHostel
        (roomsNonneg_of_hostels_eq (saveBooking_some (by assumption)).2.1 inv)
        (by assumption))

/-- Every single request preserves the inventory floor. -/
theorem exec_nonneg (cfg : Config) {s : St} (op : Op) (inv : roomsNonneg s) :
    roomsNonneg (exec cfg s op) := by
  cases op with
  | create c req today =>
      exact roomsNonneg_of_hostels_eq (createBooking_hostels c req today s) inv
  | confirm c bid now =>
      exact roomsNonneg_of_hostels_eq (confirmBooking_hostels c bid now s) inv
  | reject c bid reason now =>
      exact roomsNonneg_of_hostels_eq (rejectBooking_hostels c bid reason now s) inv
  | cancel c bid reason now => exact cancelBooking_nonneg c bid reason now inv
  | verify c bid oid pid sig now => exact verifyPayment_nonneg cfg c bid oid pid sig now inv

/-- Any sequence of lifecycle requests preserves the inventory floor. -/
theorem run_nonneg (cfg : Config) (ops : List Op) : ∀ s : St, roomsNonneg s →
    roomsNonneg (run cfg s ops) := by
  induction ops with
  | nil => intro s inv; exact inv
  | cons op ops ih =>
      intro s inv
      exact ih (exec cfg s op) (exec_nonneg cfg op inv)




theorem find?_modifyRoom {t : RoomType} {f : RoomInfo → RoomInfo} {rooms : List RoomInfo}
    {r : RoomInfo} (hf : ∀ x, (f x).type = x.type)
    (h : rooms.find? (fun x => x.type = t) = some r) :
    (modifyRoom t f rooms).find? (fun x => x.type = t) = some (f r) := by
  induction rooms with
  | nil => simp [List.find?] at h
  | cons y ys ih =>
      by_cases hy : y.type = t
      · rw [List.find?_cons_of_pos _ (by simpa using hy)] at h
        cases h
        simp only [modifyRoom, if_pos hy]
        rw [List.find?_cons_of_pos _ (by simp [hf, hy])]
      · rw [List.find?_cons_of_neg _ (by simpa using hy)] at h
        simp only [modifyRoom, if_neg hy]
        rw [List.find?_cons_of_neg _ (by simpa using hy)]
        exact ih h

theorem find?_map_replace {l : List Hostel} {hid : Nat} {h : Hostel}
    (hsome : (l.find? (fun x => x.id = hid)).isSome) (hh : h.id = hid) :
    (l.map (fun x => if x.id = h.id then h else x)).find? (fun x => x.id = hid)
      = some h := by
  induction l with
  | nil => simp [List.find?] at hsome
  | cons y ys ih =>
      by_cases hy : y.id = hid
      · simp only [List.map_cons, hh, if_pos hy]
        rw [List.find?_cons_of_pos _ (by simpa using hh)]
      · simp only [List.map_cons, hh, if_neg hy]
        rw [List.find?_cons_of_neg _ (by simpa using hy)]
        rw [List.find?_cons_of_neg _ (by simpa using hy)] at hsome
        simpa only [hh] using ih hsome

theorem findBooking_map_replace {l : List Booking} {bid : Nat} {b : Booking}
    (hsome : (l.find? (fun x => x.id = bid)).isSome) (hb : b.id = bid) :
    (l.map (fun x => if x.id = b.id then b else x)).find? (fun x => x.id = bid)
      = some b := by
  induction l with
  | nil => simp [List.find?] at hsome
  | cons y ys ih =>
      by_cases hy : y.id = bid
      · simp only [List.map_cons, hb, if_pos hy]
        rw [List.find?_cons_of_pos _ (by simpa using hb)]
      · simp only [List.map_cons, hb, if_neg hy]
        rw [List.find?_cons_of_neg _ (by simpa using hy)]
        rw [List.find?_cons_of_neg _ (by simpa using hy)] at hsome
        simpa only [hb] using ih hsome



theorem cancel_ok_avail {c : Caller} {bid : Nat} {reason : String} {now : Int}
    {s : St} {b : Booking} {a : Int}
    (hb : findBooking s bid = some b)
    (ha : availOf s b.hostel b.roomType = some a)
    (hok : (cancelBooking c bid reason now s).1 = Resp.ok) :
    availOf (cancelBooking c bid reason now s).2 b.hostel b.roomType = some (a + 1) := by
  rcases hfh : findHostel s b.hostel with _ | hostel
  · simp [availOf, hfh] at ha
  rcases hfr : hostel.rooms.find? (fun x => x.type = b.roomType) with _ | r
  · simp [availOf, hfh, hfr] at ha
  have hra : r.availableRooms = a := by
    have h := ha
    simp [availOf, hfh, hfr] at h
    exact h
  simp only [cancelBooking, hb] at hok ⊢
  by_cases h1 : reason = ""
  · rw [if_pos h1] at hok
    simp at hok
  rw [if_neg h1] at hok ⊢
  by_cases h2 : ¬(b.student = c.id ∨ b.owner = c.id ∨ c.role = "Admin")
  · rw [if_pos h2] at hok
    simp at hok
  rw [if_neg h2] at hok ⊢
  by_cases h3 : canBeCancelled b = false
  · rw [if_pos h3] at hok
    simp at hok
  rw [if_neg h3] at hok ⊢
  split at hok
  · exact Resp.noConfusion hok
  next s1 hs1 =>
    have hhe : s1.hostels = s.hostels := (saveBooking_some hs1).2.1
    have hfh1 : findHostel s1 b.hostel = some hostel := by
      unfold findHostel
      rw [hhe]
      exact hfh
    simp only [hfh1, hfr] at hok ⊢
    split at hok
    · exact Resp.noConfusion hok
    next s2 hs2 =>
      obtain ⟨hv, hmap, -, -⟩ := saveHostel_some hs2
      have hid : hostel.id = b.hostel := by
        have := List.find?_some hfh
        simpa using this
      have hsome : (s1.hostels.find? (fun x => x.id = b.hostel)).isSome := by
        have h : s1.hostels.find? (fun x => x.id = b.hostel) = some hostel := hfh1
        simp [h]
      have hid' : ({ hostel with rooms := (modifyRoom b.roomType
          (fun x => { x with availableRooms := x.availableRooms + 1 }) hostel.rooms) } : Hostel).id
          = b.hostel := hid
      have hfh2 : findHostel s2 b.hostel
          = some { hostel with rooms := (modifyRoom b.roomType
              (fun x => { x with availableRooms := x.availableRooms + 1 }) hostel.rooms) } := by
        unfold findHostel
        rw [hmap]
        exact find?_map_replace hsome hid'
      simp only [availOf, hfh2]
      rw [find?_modifyRoom (f := fun x => { x with availableRooms := x.availableRooms + 1 })
        (fun x => rfl) hfr]
      simp [hra]



/-- C1 counterexample: starting from a valid store (1 of 1 `Single` rooms
free), a create followed by a cancel leaves `availableRooms = 2` while
`totalRooms = 1` — the claimed bound `availableRooms ≤ totalRooms` fails,
because the release performed during cancellation is not capped. -/
theorem c1_counterexample :
    ∃ h ∈ (run cfgA stA [Op.create stud reqA 0, Op.cancel stud 0 "moving" 0]).hostels,
      ∃ r ∈ h.rooms, r.totalRooms < r.availableRooms := by decide

/-- C1 (amended): after any sequence of booking-lifecycle operations no
stored `availableRooms` count is negative (a decrement below zero fails the
schema's min-0 validation, so the write is rejected), but the release
performed during cancellation is not capped at `totalRooms` and there is no
`InvalidRelease` failure: every successful cancel increments the booking's
room count by exactly one, even when it already equals `totalRooms`. -/
theorem c1_inventory :
    (∀ (cfg : Config) (ops : List Op) (s : St),
      roomsNonneg s → roomsNonneg (run cfg s ops)) ∧
    (∀ (c : Caller) (bid : Nat) (reason : String) (now : Int) (s : St)
      (b : Booking) (a : Int),
      findBooking s bid = some b →
      availOf s b.hostel b.roomType = some a →
      (cancelBooking c bid reason now s).1 = Resp.ok →
      availOf (cancelBooking c bid reason now s).2 b.hostel b.roomType = some (a + 1)) :=
  ⟨fun cfg ops s h => run_nonneg cfg ops s h,
   fun _ _ _ _ _ _ _ hb ha hok => cancel_ok_avail hb ha hok⟩

/-- Witness for C1: both parts applied at concrete inputs — the invariant
holds after a concrete run, and the concrete cancel of the booking in `st1`
bumps availability from 1 to 2. -/
theorem c1_inventory_witness :
    roomsNonneg (run cfgA stA [Op.create stud reqA 0]) ∧
    availOf (cancelBooking stud 0 "moving" 0 st1).2 bX.hostel bX.roomType = some (1 + 1) :=
  ⟨c1_inventory.1 cfgA [Op.create stud reqA 0] stA (by decide),
   c1_inventory.2 stud 0 "moving" 0 st1 bX 1 (by decide) (by decide) (by decide)⟩



theorem createBooking_frame {c : Caller} {req : CreateReq} {today : Int} {s : St}
    {r : Resp} {s' : St} (heq : createBooking c req today s = (r, s'))
    (hne : r ≠ Resp.created) : s' = s := by
  simp only [createBooking] at heq
  repeat' split at heq
  all_goals injection heq with h1 h2
  all_goals subst h2
  all_goals first
    | rfl
    | exact absurd h1.symm hne

theorem createBooking_success_shape {c : Caller} {req : CreateReq} {today : Int} {s : St}
    {s' : St} (heq : createBooking c req today s = (Resp.created, s')) :
    ∃ nb, s'.bookings = s.bookings ++ [nb] ∧
      nb.status = BStatus.Pending ∧ nb.hostel = req.hostelId ∧
      nb.roomType = req.roomType ∧ nb.student = c.id ∧
      nb.pricing.paidAmount = 0 := by
  simp only [createBooking] at heq
  repeat' split at heq
  all_goals injection heq with h1 h2
  all_goals first
    | exact Resp.noConfusion h1
    | (subst h2
       next hins => exact ⟨_, (insertBooking_some hins).1, rfl, rfl, rfl, rfl, rfl⟩)

theorem createBooking_roomUnavailable {c : Caller} {req : CreateReq} {today : Int}
    {s : St} {hostel : Hostel} {roomInfo : RoomInfo}
    (hrole : c.role = "Student") (hdur : 1 ≤ req.duration)
    (htoday : today ≤ req.checkInDate) (hco : req.checkInDate < req.checkOutDate)
    (hh : findHostel s req.hostelId = some hostel)
    (hst : hostel.status = HStatus.Active) (hv : hostel.isVerified = true)
    (hroom : hostel.rooms.find? (fun x => x.type = req.roomType) = some roomInfo)
    (havail : roomInfo.availableRooms ≤ 0) :
    createBooking c req today s = (Resp.roomUnavailable, s) := by
  simp only [createBooking, hh, hroom,
    if_neg (by simp [hrole] : ¬(c.role ≠ "Student")),
    if_neg (not_lt.mpr hdur), if_neg (not_lt.mpr htoday), if_neg (not_le.mpr hco),
    if_neg (by simp [hst, hv] : ¬(hostel.status ≠ HStatus.Active ∨ hostel.isVerified = false)),
    if_pos havail]



/-- C2 counterexample: a successful `createBooking` does not reserve
inventory — afterwards one `Pending` booking holds the room type, yet
`totalRooms - availableRooms` is still 0, so the claimed accounting equality
fails (the decrement only happens later, at payment verification). -/
theorem c2_counterexample :
    (createBooking stud reqA 0 stA).1 = Resp.created ∧
    ∃ h ∈ (createBooking stud reqA 0 stA).2.hostels, ∃ r ∈ h.rooms,
      r.totalRooms - r.availableRooms
        ≠ (reservedCount (createBooking stud reqA 0 stA).2 h.id r.type : Int) := by
  decide

/-- C2 (amended): `createBooking` never writes the hostel collection — no
reservation is taken at creation time (the decrement happens at payment
verification instead); on any non-`created` response the whole store is
unchanged (in particular no booking is persisted); under the earlier guards,
an exhausted room type yields `roomUnavailable` with the store unchanged;
and a successful call appends exactly one `Pending` booking with
`paidAmount = 0`. -/
theorem c2_create_inventory :
    (∀ (c : Caller) (req : CreateReq) (today : Int) (s : St),
      ((createBooking c req today s).2).hostels = s.hostels) ∧
    (∀ (c : Caller) (req : CreateReq) (today : Int) (s : St) (r : Resp) (s' : St),
      createBooking c req today s = (r, s') → r ≠ Resp.created → s' = s) ∧
    (∀ (c : Caller) (req : CreateReq) (today : Int) (s : St) (hostel : Hostel)
        (roomInfo : RoomInfo),
      c.role = "Student" → 1 ≤ req.duration → today ≤ req.checkInDate →
      req.checkInDate < req.checkOutDate →
      findHostel s req.hostelId = some hostel →
      hostel.status = HStatus.Active → hostel.isVerified = true →
      hostel.rooms.find? (fun x => x.type = req.roomType) = some roomInfo →
      roomInfo.availableRooms ≤ 0 →
      createBooking c req today s = (Resp.roomUnavailable, s)) ∧
    (∀ (c : Caller) (req : CreateReq) (today : Int) (s s' : St),
      createBooking c req today s = (Resp.created, s') →
      ∃ nb, s'.bookings = s.bookings ++ [nb] ∧
        nb.status = BStatus.Pending ∧ nb.hostel = req.hostelId ∧
        nb.roomType = req.roomType ∧ nb.student = c.id ∧
        nb.pricing.paidAmount = 0) :=
  ⟨createBooking_hostels,
   fun _ _ _ _ _ _ heq hne => createBooking_frame heq hne,
   fun _ _ _ _ _ _ h1 h2 h3 h4 h5 h6 h7 h8 h9 =>
     createBooking_roomUnavailable h1 h2 h3 h4 h5 h6 h7 h8 h9,
   fun _ _ _ _ _ heq => createBooking_success_shape heq⟩

/-- Witness for C2: the three hypothesis-bearing parts applied at concrete
inputs — exhausted inventory yields `roomUnavailable` and leaves the store
unchanged, a forbidden call leaves the store unchanged, and the successful
create appends one `Pending` booking. -/
theorem c2_create_inventory_witness :
    createBooking stud reqA 0 stB = (Resp.roomUnavailable, stB) ∧
    (createBooking ⟨20, "Parent"⟩ reqA 0 stA).2 = stA ∧
    ∃ nb, (createBooking stud reqA 0 stA).2.bookings = stA.bookings ++ [nb] ∧
      nb.status = BStatus.Pending ∧ nb.hostel = reqA.hostelId ∧
      nb.roomType = reqA.roomType ∧ nb.student = stud.id ∧
      nb.pricing.paidAmount = 0 :=
  ⟨c2_create_inventory.2.2.1 stud reqA 0 stB (hostelA 1 0) ⟨RoomType.Single, 1, 0⟩
      rfl (by decide) (by decide) (by decide) (by decide) rfl rfl (by decide) (by decide),
   c2_create_inventory.2.1 ⟨20, "Parent"⟩ reqA 0 stA Resp.forbidden stA
      (by decide) (by decide),
   c2_create_inventory.2.2.2 stud reqA 0 stA ((createBooking stud reqA 0 stA).2)
      (by decide)⟩



theorem verify_ok_effects {cfg : Config} {c : Caller} {bid : Nat}
    {oid pid sig : String} {now : Int} {s : St} {b : Booking} {a : Int}
    (hb : findBooking s bid = some b)
    (ha : availOf s b.hostel b.roomType = some a)
    (hok : (verifyPayment cfg c bid oid pid sig now s).1 = Resp.ok) :
    availOf (verifyPayment cfg c bid oid pid sig now s).2 b.hostel b.roomType
      = some (a - 1) ∧
    ∃ b', findBooking (verifyPayment cfg c bid oid pid sig now s).2 bid = some b' ∧
      b'.status = BStatus.Paid ∧ b'.pricing.paidAmount = b.pricing.totalAmount ∧
      b'.pricing.pendingAmount = 0 ∧ b'.paidAt = some now := by
  rcases hfh : findHostel s b.hostel with _ | hostel
  · simp [availOf, hfh] at ha
  rcases hfr : hostel.rooms.find? (fun x => x.type = b.roomType) with _ | r
  · simp [availOf, hfh, hfr] at ha
  have hra : r.availableRooms = a := by
    have h := ha
    simp [availOf, hfh, hfr] at h
    exact h
  have hbid : b.id = bid := by
    have := List.find?_some hb
    simpa using this
  simp only [verifyPayment, hb] at hok ⊢
  by_cases h1 : c.role ≠ "Student"
  · rw [if_pos h1] at hok
    simp at hok
  rw [if_neg h1] at hok ⊢
  by_cases h2 : pid = "" ∨ oid = "" ∨ sig = ""
  · rw [if_pos h2] at hok
    simp at hok
  rw [if_neg h2] at hok ⊢
  by_cases h3 : b.student ≠ c.id
  · rw [if_pos h3] at hok
    simp at hok
  rw [if_neg h3] at hok ⊢
  by_cases h4 : cfg.hmac cfg.secret (oid ++ "|" ++ pid) ≠ sig
  · rw [if_pos h4] at hok
    simp at hok
  rw [if_neg h4] at hok ⊢
  split at hok
  · exact Resp.noConfusion hok
  next s1 hs1 =>
    obtain ⟨hbk1, hhe, -⟩ := saveBooking_some hs1
    have hfh1 : findHostel s1 b.hostel = some hostel := by
      unfold findHostel
      rw [hhe]
      exact hfh
    simp only [hfh1, hfr] at hok ⊢
    split at hok
    · exact Resp.noConfusion hok
    next s2 hs2 =>
      obtain ⟨hv, hmap, hbk2, -⟩ := saveHostel_some hs2
      have hid : hostel.id = b.hostel := by
        have := List.find?_some hfh
        simpa using this
      have hsome : (s1.hostels.find? (fun x => x.id = b.hostel)).isSome := by
        have h : s1.hostels.find? (fun x => x.id = b.hostel) = some hostel := hfh1
        simp [h]
      have hid' : ({ hostel with
          rooms := modifyRoom b.roomType
            (fun x => { x with availableRooms := x.availableRooms - 1 }) hostel.rooms
          currentOccupancy := hostel.currentOccupancy + 1 } : Hostel).id
          = b.hostel := hid
      have hfh2 : findHostel s2 b.hostel
          = some { hostel with
              rooms := modifyRoom b.roomType
                (fun x => { x with availableRooms := x.availableRooms - 1 }) hostel.rooms
              currentOccupancy := hostel.currentOccupancy + 1 } := by
        unfold findHostel
        rw [hmap]
        exact find?_map_replace hsome hid'
      constructor
      · simp only [availOf, hfh2]
        rw [find?_modifyRoom (f := fun x => { x with availableRooms := x.availableRooms - 1 })
          (fun x => rfl) hfr]
        simp [hra]
      · have hbsome : (s.bookings.find? (fun x => x.id = bid)).isSome := by
          have h : s.bookings.find? (fun x => x.id = bid) = some b := hb
          simp [h]
        exact ⟨_,
          (by unfold findBooking
              rw [hbk2, hbk1]
              exact findBooking_map_replace hbsome hbid),
          rfl, rfl, (by simp [preSave]), rfl⟩

/-- C3 counterexample: payment verification carries no status guard — it
succeeds on a booking that is still `Pending` (never confirmed), moving it
straight to `Paid`, contradicting the claim that it succeeds only from
`Confirmed`. -/
theorem c3_counterexample :
    (verifyPayment cfgA stud 0 "ord" "pay" sigA 0 st1).1 = Resp.ok ∧
    (findBooking st1 0).map Booking.status = some BStatus.Pending ∧
    (findBooking (verifyPayment cfgA stud 0 "ord" "pay" sigA 0 st1).2 0).map Booking.status
      = some BStatus.Paid := by
  decide

/-- C3 (amended): payment verification checks only existence, ownership and
the signature — not the booking status, and there is no idempotent guard.
Every call with a valid signature that returns success sets
`paidAmount = totalAmount`, `pendingAmount = 0`, status `Paid`, stamps
`paidAt`, and decrements the room's `availableRooms` by one — a replay with
the same `paymentId` re-applies the decrement rather than being a no-op. -/
theorem c3_payment_not_guarded :
    ∀ (cfg : Config) (c : Caller) (bid : Nat) (oid pid sig : String) (now : Int)
      (s : St) (b : Booking) (a : Int),
      findBooking s bid = some b →
      availOf s b.hostel b.roomType = some a →
      (verifyPayment cfg c bid oid pid sig now s).1 = Resp.ok →
      availOf (verifyPayment cfg c bid oid pid sig now s).2 b.hostel b.roomType
        = some (a - 1) ∧
      ∃ b', findBooking (verifyPayment cfg c bid oid pid sig now s).2 bid = some b' ∧
        b'.status = BStatus.Paid ∧ b'.pricing.paidAmount = b.pricing.totalAmount ∧
        b'.pricing.pendingAmount = 0 ∧ b'.paidAt = some now :=
  fun _ _ _ _ _ _ _ _ _ _ hb ha hok => verify_ok_effects hb ha hok

/-- Witness for C3: the theorem applied to a concrete `Confirmed` booking
(2 rooms free); the verify call decrements availability to 1 and marks the
booking paid in full. -/
theorem c3_payment_not_guarded_witness :
    availOf (verifyPayment cfgA stud 5 "ord" "pay" sigA 0
        (stWith BStatus.Confirmed 0 2 2)).2
        (bookingAt BStatus.Confirmed 0).hostel (bookingAt BStatus.Confirmed 0).roomType
      = some (2 - 1) ∧
    ∃ b', findBooking (verifyPayment cfgA stud 5 "ord" "pay" sigA 0
        (stWith BStatus.Confirmed 0 2 2)).2 5 = some b' ∧
      b'.status = BStatus.Paid ∧
      b'.pricing.paidAmount = (bookingAt BStatus.Confirmed 0).pricing.totalAmount ∧
      b'.pricing.pendingAmount = 0 ∧ b'.paidAt = some 0 :=
  c3_payment_not_guarded cfgA stud 5 "ord" "pay" sigA 0
    (stWith BStatus.Confirmed 0 2 2) (bookingAt BStatus.Confirmed 0) 2
    (by decide) (by decide) (by decide)




/-- C4: when the submitted signature differs from the HMAC digest of
`orderId|paymentId` under the configured secret, payment verification
returns the signature error and the entire store is unchanged — in
particular the booking's status, `paidAmount`, payment sub-record and every
`availableRooms` count are untouched. -/
theorem c4_invalid_signature :
    ∀ (cfg : Config) (c : Caller) (bid : Nat) (oid pid sig : String) (now : Int)
      (s : St) (b : Booking),
      c.role = "Student" → pid ≠ "" → oid ≠ "" → sig ≠ "" →
      findBooking s bid = some b → b.student = c.id →
      sig ≠ cfg.hmac cfg.secret (oid ++ "|" ++ pid) →
      verifyPayment cfg c bid oid pid sig now s = (Resp.invalidSignature, s) := by
  intro cfg c bid oid pid sig now s b hrole hpid hoid hsig hb hstu hne
  simp only [verifyPayment, hb,
    if_neg (by simp [hrole] : ¬(c.role ≠ "Student")),
    if_neg (by simp [hpid, hoid, hsig] : ¬(pid = "" ∨ oid = "" ∨ sig = "")),
    if_neg (by simp [hstu] : ¬(b.student ≠ c.id)),
    if_pos (Ne.symm hne)]

/-- Witness for C4: a concrete tampered signature against a `Confirmed`
booking is rejected with the store identically unchanged. -/
theorem c4_invalid_signature_witness :
    verifyPayment cfgA stud 5 "ord" "pay" "tampered" 0 (stWith BStatus.Confirmed 0 1 1)
      = (Resp.invalidSignature, stWith BStatus.Confirmed 0 1 1) :=
  c4_invalid_signature cfgA stud 5 "ord" "pay" "tampered" 0
    (stWith BStatus.Confirmed 0 1 1) (bookingAt BStatus.Confirmed 0)
    rfl (by decide) (by decide) (by decide) (by decide) rfl (by decide)



/-- C5 counterexample: at the 70% tier the binary64 product deviates from
exact arithmetic — `90 * 0.7` is `62.99999999999999` as a double, so the
code returns 62 while `floor(90 * 7/10) = 63`. -/
theorem c5_counterexample :
    computeRefund 90 20 = 62 ∧ computeRefund 90 20 ≠ 63 := by decide

/-- C5 (amended): `computeRefund` applies the tier percentages
90/70/50/20/0 exactly as claimed, returning `Math.floor` of the IEEE-754
double product `paidAmount * pct`; the three cited examples hold, the
result is 0 whenever `daysUntilCheckIn ≤ 0`, is never negative, and never
exceeds `paidAmount` — but it equals the exact `floor(paidAmount * pct)`
only up to binary64 rounding (false e.g. at `paidAmount = 90`, 70% tier). -/
theorem c5_refund_tiers :
    computeRefund 10000 35 = 9000 ∧ computeRefund 10000 10 = 5000 ∧
    computeRefund 10000 (-1) = 0 ∧
    (∀ paid days : Int, days ≤ 0 → computeRefund paid days = 0) ∧
    (∀ paid days : Int, 0 ≤ computeRefund paid days) ∧
    (∀ paid days : Int, 0 ≤ paid → paid < 2 ^ 53 → computeRefund paid days ≤ paid) := by
  refine ⟨by decide, by decide, by decide, ?_, ?_, ?_⟩
  · intro paid days h
    simp only [computeRefund]
    rw [if_neg (by omega), if_neg (by omega), if_neg (by omega), if_neg (by omega)]
  · intro paid days
    simp only [computeRefund]
    split_ifs <;> positivity
  · intro paid days h0 h53
    have htn : (paid.toNat : Int) = paid := Int.toNat_of_nonneg h0
    have hlt : paid.toNat < 2 ^ 53 := by
      have h2p : ((2 : Int) ^ 53) = ((2 ^ 53 : Nat) : Int) := by norm_num
      omega
    have hbound : ∀ m : Nat, m < 2 ^ 54 → paid.toNat * m < 2 ^ 200 := by
      intro m hm
      calc paid.toNat * m ≤ 2 ^ 53 * 2 ^ 54 := by
            exact Nat.mul_le_mul (Nat.le_of_lt hlt) (Nat.le_of_lt hm)
      _ < 2 ^ 200 := by norm_num
    simp only [computeRefund]
    split_ifs
    · calc ((fmulFloor paid.toNat 8106479329266893 53 : Nat) : Int)
          ≤ (paid.toNat : Int) := by
            exact_mod_cast fmulFloor_le _ _ _ (by norm_num) (hbound _ (by norm_num))
      _ = paid := htn
    · calc ((fmulFloor paid.toNat 3152519739159347 52 : Nat) : Int)
          ≤ (paid.toNat : Int) := by
            exact_mod_cast fmulFloor_le _ _ _ (by norm_num) (hbound _ (by norm_num))
      _ = paid := htn
    · calc ((fmulFloor paid.toNat 1 1 : Nat) : Int)
          ≤ (paid.toNat : Int) := by
            exact_mod_cast fmulFloor_le _ _ _ (by norm_num) (hbound _ (by norm_num))
      _ = paid := htn
    · calc ((fmulFloor paid.toNat 3602879701896397 54 : Nat) : Int)
          ≤ (paid.toNat : Int) := by
            exact_mod_cast fmulFloor_le _ _ _ (by norm_num) (hbound _ (by norm_num))
      _ = paid := htn
    · exact h0

/-- Witness for C5: the hypothesis-bearing parts applied at concrete
inputs. -/
theorem c5_refund_tiers_witness :
    computeRefund 5 (-3) = 0 ∧ (0 : Int) ≤ computeRefund 7 12 ∧
    computeRefund 12345 20 ≤ 12345 :=
  ⟨c5_refund_tiers.2.2.2.1 5 (-3) (by decide),
   c5_refund_tiers.2.2.2.2.1 7 12,
   c5_refund_tiers.2.2.2.2.2 12345 20 (by decide) (by decide)⟩



/-- C6: every booking persisted by a successful `createBooking` is priced by
exact integer arithmetic as
`monthlyRent*duration + securityDeposit + maintenanceCharges*duration +
foodTerm`, where the food term is `foodMonthlyCost*duration` when a food
plan is selected and the hostel offers food, and 0 otherwise — in
particular 0 whenever no food plan is selected. -/
theorem c6_pricing :
    ∀ (c : Caller) (req : CreateReq) (today : Int) (s s' : St) (hostel : Hostel),
      findHostel s req.hostelId = some hostel →
      createBooking c req today s = (Resp.created, s') →
      ∃ nb, s'.bookings = s.bookings ++ [nb] ∧
        nb.pricing.totalAmount =
          hostel.pricing.monthlyRent * req.duration + hostel.pricing.securityDeposit +
            hostel.pricing.maintenanceCharges * req.duration +
            (if req.foodSelected ∧ hostel.foodOptions.available then
              hostel.foodOptions.monthlyCost * req.duration else 0) ∧
        (req.foodSelected = false →
          nb.pricing.totalAmount =
            hostel.pricing.monthlyRent * req.duration + hostel.pricing.securityDeposit +
              hostel.pricing.maintenanceCharges * req.duration) := by
  intro c req today s s' hostel hh heq
  simp only [createBooking, hh] at heq
  repeat' split at heq
  all_goals injection heq with h1 h2
  all_goals try exact Resp.noConfusion h1
  next hins =>
    subst h2
    refine ⟨_, (insertBooking_some hins).1, rfl, ?_⟩
    intro hfs
    show ({ monthlyRent := hostel.pricing.monthlyRent,
            securityDeposit := hostel.pricing.securityDeposit,
            maintenanceCharges := hostel.pricing.maintenanceCharges,
            totalAmount := hostel.pricing.monthlyRent * req.duration +
              hostel.pricing.securityDeposit +
              hostel.pricing.maintenanceCharges * req.duration +
              (if req.foodSelected ∧ hostel.foodOptions.available then
                hostel.foodOptions.monthlyCost * req.duration else 0),
            paidAmount := 0,
            pendingAmount := _ } : BPricing).totalAmount = _
    simp [hfs]

/-- Witness for C6: the concrete create against `hostelA` (rent 1000,
deposit 500, maintenance 0, no food) for 6 months totals 6500. -/
theorem c6_pricing_witness :
    ∃ nb, (createBooking stud reqA 0 stA).2.bookings = stA.bookings ++ [nb] ∧
      nb.pricing.totalAmount = 6500 ∧
      (reqA.foodSelected = false → nb.pricing.totalAmount = 6500) := by
  obtain ⟨nb, h1, h2, h3⟩ := c6_pricing stud reqA 0 stA
    ((createBooking stud reqA 0 stA).2) (hostelA 1 1) (by decide) (by decide)
  refine ⟨nb, h1, ?_, fun _ => ?_⟩
  · rw [h2]; decide
  · rw [h3 rfl]; decide



theorem reject_ok_effects {c : Caller} {bid : Nat} {reason : Option String}
    {now : Int} {s : St} {b : Booking}
    (hb : findBooking s bid = some b)
    (hok : (rejectBooking c bid reason now s).1 = Resp.ok) :
    b.status = BStatus.Pending ∧
    ((rejectBooking c bid reason now s).2).hostels = s.hostels ∧
    ∃ b', findBooking (rejectBooking c bid reason now s).2 bid = some b' ∧
      b'.status = BStatus.Rejected ∧
      b'.cancellation = some ⟨reason.getD "Rejected by owner", "Owner", 0, "Not Applicable"⟩ ∧
      b'.cancelledAt = some now := by
  have hbid : b.id = bid := by
    have := List.find?_some hb
    simpa using this
  simp only [rejectBooking, hb] at hok ⊢
  by_cases h1 : c.role ≠ "HostelOwner"
  · rw [if_pos h1] at hok
    simp at hok
  rw [if_neg h1] at hok ⊢
  by_cases h2 : b.owner ≠ c.id
  · rw [if_pos h2] at hok
    simp at hok
  rw [if_neg h2] at hok ⊢
  by_cases h3 : b.status ≠ BStatus.Pending
  · rw [if_pos h3] at hok
    simp at hok
  rw [if_neg h3] at hok ⊢
  split at hok
  · exact Resp.noConfusion hok
  next s1 hs1 =>
    obtain ⟨hbk1, hhe, -⟩ := saveBooking_some hs1
    have hbsome : (s.bookings.find? (fun x => x.id = bid)).isSome := by
      have h : s.bookings.find? (fun x => x.id = bid) = some b := hb
      simp [h]
    exact ⟨not_not.mp h3, hhe, _,
      (by unfold findBooking
          rw [hbk1]
          exact findBooking_map_replace hbsome hbid),
      rfl, rfl, rfl⟩

theorem reject_nonpending {c : Caller} {bid : Nat} {reason : Option String}
    {now : Int} {s : St} {b : Booking}
    (hrole : c.role = "HostelOwner") (hb : findBooking s bid = some b)
    (hown : b.owner = c.id) (hst : b.status ≠ BStatus.Pending) :
    rejectBooking c bid reason now s = (Resp.invalidTransition, s) := by
  simp only [rejectBooking, hb,
    if_neg (by simp [hrole] : ¬(c.role ≠ "HostelOwner")),
    if_neg (by simp [hown] : ¬(b.owner ≠ c.id)),
    if_pos hst]

/-- C7 counterexample: rejecting the pending booking succeeds and records
the rejection, but the hostel's `availableRooms` stays at 1 — the reject
route never touches the hostel document, so no inventory release happens. -/
theorem c7_counterexample :
    (rejectBooking ownr 0 none 0 st1).1 = Resp.ok ∧
    (findBooking (rejectBooking ownr 0 none 0 st1).2 0).map Booking.status
      = some BStatus.Rejected ∧
    availOf st1 1 RoomType.Single = some 1 ∧
    availOf (rejectBooking ownr 0 none 0 st1).2 1 RoomType.Single = some 1 := by
  decide

/-- C7 (amended): a successful reject requires a `Pending` booking,
transitions it to `Rejected` and records a cancellation sub-record with
`cancelledBy = Owner` — but it performs no inventory release: the hostel
collection is never written, so `availableRooms` is unchanged; reject on a
non-`Pending` booking fails with the invalid-transition response. -/
theorem c7_reject :
    (∀ (c : Caller) (bid : Nat) (reason : Option String) (now : Int) (s : St)
        (b : Booking),
      findBooking s bid = some b →
      (rejectBooking c bid reason now s).1 = Resp.ok →
      b.status = BStatus.Pending ∧
      ((rejectBooking c bid reason now s).2).hostels = s.hostels ∧
      ∃ b', findBooking (rejectBooking c bid reason now s).2 bid = some b' ∧
        b'.status = BStatus.Rejected ∧
        b'.cancellation
          = some ⟨reason.getD "Rejected by owner", "Owner", 0, "Not Applicable"⟩ ∧
        b'.cancelledAt = some now) ∧
    (∀ (c : Caller) (bid : Nat) (reason : Option String) (now : Int) (s : St)
        (b : Booking),
      c.role = "HostelOwner" → findBooking s bid = some b → b.owner = c.id →
      b.status ≠ BStatus.Pending →
      rejectBooking c bid reason now s = (Resp.invalidTransition, s)) :=
  ⟨fun _ _ _ _ _ _ hb hok => reject_ok_effects hb hok,
   fun _ _ _ _ _ _ hrole hb hown hst => reject_nonpending hrole hb hown hst⟩

/-- Witness for C7: both parts at concrete inputs — the successful reject
of the pending booking in `st1`, and the invalid-transition failure on a
`Paid` booking. -/
theorem c7_reject_witness :
    ((bX.status = BStatus.Pending ∧
      ((rejectBooking ownr 0 none 0 st1).2).hostels = st1.hostels ∧
      ∃ b', findBooking (rejectBooking ownr 0 none 0 st1).2 0 = some b' ∧
        b'.status = BStatus.Rejected ∧
        b'.cancellation
          = some ⟨(none : Option String).getD "Rejected by owner", "Owner", 0,
              "Not Applicable"⟩ ∧
        b'.cancelledAt = some 0) ∧
     rejectBooking ownr 5 none 0 (stWith BStatus.Paid 6500 1 1)
       = (Resp.invalidTransition, stWith BStatus.Paid 6500 1 1)) :=
  ⟨c7_reject.1 ownr 0 none 0 st1 bX (by decide) (by decide),
   c7_reject.2 ownr 5 none 0 (stWith BStatus.Paid 6500 1 1)
     (bookingAt BStatus.Paid 6500) rfl (by decide) rfl (by decide)⟩




theorem confirm_ok_characterize {c : Caller} {bid : Nat} {now : Int} {s s' : St}
    (heq : confirmBooking c bid now s = (Resp.ok, s')) :
    c.role = "HostelOwner" ∧ ∃ b, findBooking s bid = some b ∧ b.owner = c.id ∧
      b.status = BStatus.Pending := by
  simp only [confirmBooking] at heq
  by_cases h1 : c.role ≠ "HostelOwner"
  · rw [if_pos h1] at heq
    injection heq with hr _
    exact Resp.noConfusion hr
  rw [if_neg h1] at heq
  split at heq
  · injection heq with hr _
    exact Resp.noConfusion hr
  next b hfb =>
    by_cases h2 : b.owner ≠ c.id
    · rw [if_pos h2] at heq
      injection heq with hr _
      exact Resp.noConfusion hr
    rw [if_neg h2] at heq
    by_cases h3 : b.status ≠ BStatus.Pending
    · rw [if_pos h3] at heq
      injection heq with hr _
      exact Resp.noConfusion hr
    rw [if_neg h3] at heq
    exact ⟨not_not.mp h1, b, hfb, not_not.mp h2, not_not.mp h3⟩

theorem confirm_paid {c : Caller} {bid : Nat} {now : Int} {s : St} {b : Booking}
    (hrole : c.role = "HostelOwner") (hb : findBooking s bid = some b)
    (hown : b.owner = c.id) (hst : b.status = BStatus.Paid) :
    confirmBooking c bid now s = (Resp.invalidTransition, s) := by
  simp only [confirmBooking, hb,
    if_neg (by simp [hrole] : ¬(c.role ≠ "HostelOwner")),
    if_neg (by simp [hown] : ¬(b.owner ≠ c.id)),
    if_pos (by simp [hst] : b.status ≠ BStatus.Pending)]

theorem cancel_ok_cancellable {c : Caller} {bid : Nat} {reason : String}
    {now : Int} {s s' : St} {b : Booking}
    (hb : findBooking s bid = some b)
    (heq : cancelBooking c bid reason now s = (Resp.ok, s')) :
    b.status = BStatus.Pending ∨ b.status = BStatus.Confirmed ∨
      b.status = BStatus.Paid := by
  rcases hcb : canBeCancelled b with _ | _
  · exfalso
    simp only [cancelBooking, hb] at heq
    by_cases h1 : reason = ""
    · rw [if_pos h1] at heq
      injection heq with hr _
      exact Resp.noConfusion hr
    rw [if_neg h1] at heq
    by_cases h2 : ¬(b.student = c.id ∨ b.owner = c.id ∨ c.role = "Admin")
    · rw [if_pos h2] at heq
      injection heq with hr _
      exact Resp.noConfusion hr
    rw [if_neg h2] at heq
    rw [if_pos hcb] at heq
    injection heq with hr _
    exact Resp.noConfusion hr
  · simpa [canBeCancelled] using hcb

theorem cancel_completed {c : Caller} {bid : Nat} {reason : String} {now : Int}
    {s : St} {b : Booking}
    (hres : reason ≠ "") (hb : findBooking s bid = some b)
    (hauth : b.student = c.id ∨ b.owner = c.id ∨ c.role = "Admin")
    (hst : b.status = BStatus.Completed) :
    cancelBooking c bid reason now s = (Resp.invalidTransition, s) := by
  simp only [cancelBooking, hb, if_neg hres, if_neg (not_not_intro hauth),
    if_pos (by simp [canBeCancelled, hst] : canBeCancelled b = false)]

/-- C8: the transition guards reject out-of-order operations — a confirm
that returns success had a `Pending` booking owned by the calling
`HostelOwner`; confirm on a `Paid` booking (by its owner) fails with the
invalid-transition response; a cancel that returns success was called on a
booking in `Pending`, `Confirmed` or `Paid`; and cancel on a `Completed`
booking fails with the invalid-transition response. -/
theorem c8_transition_guards :
    (∀ (c : Caller) (bid : Nat) (now : Int) (s s' : St),
      confirmBooking c bid now s = (Resp.ok, s') →
      c.role = "HostelOwner" ∧ ∃ b, findBooking s bid = some b ∧ b.owner = c.id ∧
        b.status = BStatus.Pending) ∧
    (∀ (c : Caller) (bid : Nat) (now : Int) (s : St) (b : Booking),
      c.role = "HostelOwner" → findBooking s bid = some b → b.owner = c.id →
      b.status = BStatus.Paid →
      confirmBooking c bid now s = (Resp.invalidTransition, s)) ∧
    (∀ (c : Caller) (bid : Nat) (reason : String) (now : Int) (s s' : St)
        (b : Booking),
      findBooking s bid = some b →
      cancelBooking c bid reason now s = (Resp.ok, s') →
      b.status = BStatus.Pending ∨ b.status = BStatus.Confirmed ∨
        b.status = BStatus.Paid) ∧
    (∀ (c : Caller) (bid : Nat) (reason : String) (now : Int) (s : St)
        (b : Booking),
      reason ≠ "" → findBooking s bid = some b →
      (b.student = c.id ∨ b.owner = c.id ∨ c.role = "Admin") →
      b.status = BStatus.Completed →
      cancelBooking c bid reason now s = (Resp.invalidTransition, s)) :=
  ⟨fun _ _ _ _ _ heq => confirm_ok_characterize heq,
   fun _ _ _ _ _ hrole hb hown hst => confirm_paid hrole hb hown hst,
   fun _ _ _ _ _ _ _ hb heq => cancel_ok_cancellable hb heq,
   fun _ _ _ _ _ _ hres hb hauth hst => cancel_completed hres hb hauth hst⟩

/-- Witness for C8: each guard applied at a concrete input — the concrete
confirm success, a confirm on a `Paid` booking failing, a concrete cancel
success from `Pending`, and a cancel on a `Completed` booking failing. -/
theorem c8_transition_guards_witness :
    (ownr.role = "HostelOwner" ∧ ∃ b, findBooking st1 0 = some b ∧
      b.owner = ownr.id ∧ b.status = BStatus.Pending) ∧
    confirmBooking ownr 5 0 (stWith BStatus.Paid 6500 1 1)
      = (Resp.invalidTransition, stWith BStatus.Paid 6500 1 1) ∧
    (bX.status = BStatus.Pending ∨ bX.status = BStatus.Confirmed ∨
      bX.status = BStatus.Paid) ∧
    cancelBooking stud 5 "late plans" 0 (stWith BStatus.Completed 6500 1 1)
      = (Resp.invalidTransition, stWith BStatus.Completed 6500 1 1) :=
  ⟨c8_transition_guards.1 ownr 0 0 st1 ((confirmBooking ownr 0 0 st1).2) (by decide),
   c8_transition_guards.2.1 ownr 5 0 (stWith BStatus.Paid 6500 1 1)
     (bookingAt BStatus.Paid 6500) rfl (by decide) rfl rfl,
   c8_transition_guards.2.2.1 stud 0 "moving" 0 st1
     ((cancelBooking stud 0 "moving" 0 st1).2) bX (by decide) (by decide),
   c8_transition_guards.2.2.2 stud 5 "late plans" 0 (stWith BStatus.Completed 6500 1 1)
     (bookingAt BStatus.Completed 6500) (by decide) (by decide) (Or.inl rfl) rfl⟩




/-- C9 counterexample: a student whose previous booking is `CheckedOut`
(a non-terminal status under the claim's definition) can still create a new
booking — the duplicate check only queries
`Pending/Confirmed/Paid/CheckedIn/Active`, so afterwards the student holds
two bookings outside the terminal statuses. -/
theorem c9_counterexample :
    (createBooking stud reqA 0 (stWith BStatus.CheckedOut 6500 1 1)).1
      = Resp.created ∧
    ((stWith BStatus.CheckedOut 6500 1 1).bookings.filter (fun b =>
        b.student = stud.id ∧
        b.status ∉ [BStatus.Completed, BStatus.Cancelled, BStatus.Rejected,
          BStatus.Expired])).length = 1 ∧
    (((createBooking stud reqA 0 (stWith BStatus.CheckedOut 6500 1 1)).2).bookings.filter
      (fun b =>
        b.student = stud.id ∧
        b.status ∉ [BStatus.Completed, BStatus.Cancelled, BStatus.Rejected,
          BStatus.Expired])).length = 2 := by
  decide

/-- C9 (amended): the duplicate-booking guard fires exactly on the statuses
`Pending`, `Confirmed`, `Paid`, `CheckedIn`, `Active` — a prior booking in
one of those makes `createBooking` fail with the duplicate error and leave
the store unchanged, and a successful create implies the student held no
booking in that five-status set (a `CheckedOut` booking does not block). -/
theorem c9_duplicate_guard :
    (∀ (c : Caller) (req : CreateReq) (today : Int) (s : St) (hostel : Hostel)
        (roomInfo : RoomInfo),
      c.role = "Student" → 1 ≤ req.duration → today ≤ req.checkInDate →
      req.checkInDate < req.checkOutDate →
      findHostel s req.hostelId = some hostel →
      hostel.status = HStatus.Active → hostel.isVerified = true →
      hostel.rooms.find? (fun x => x.type = req.roomType) = some roomInfo →
      0 < roomInfo.availableRooms →
      (∃ b ∈ s.bookings, b.student = c.id ∧ b.status ∈ activeStatuses) →
      createBooking c req today s = (Resp.duplicateActive, s)) ∧
    (∀ (c : Caller) (req : CreateReq) (today : Int) (s s' : St),
      createBooking c req today s = (Resp.created, s') →
      ∀ b ∈ s.bookings, b.student = c.id → b.status ∉ activeStatuses) := by
  constructor
  · intro c req today s hostel roomInfo hrole hdur htoday hco hh hst hv hroom havail hex
    have hsome : (s.bookings.find? (fun x =>
        x.student = c.id ∧ x.status ∈ activeStatuses)).isSome = true := by
      rw [List.find?_isSome]
      obtain ⟨b, hmem, h1, h2⟩ := hex
      exact ⟨b, hmem, by simp [h1, h2]⟩
    simp only [createBooking, hh, hroom,
      if_neg (by simp [hrole] : ¬(c.role ≠ "Student")),
      if_neg (not_lt.mpr hdur), if_neg (not_lt.mpr htoday), if_neg (not_le.mpr hco),
      if_neg (by simp [hst, hv] :
        ¬(hostel.status ≠ HStatus.Active ∨ hostel.isVerified = false)),
      if_neg (not_le.mpr havail), if_pos hsome]
  · intro c req today s s' heq b hmem hstu habs
    have hsome : (s.bookings.find? (fun x =>
        x.student = c.id ∧ x.status ∈ activeStatuses)).isSome = true := by
      rw [List.find?_isSome]
      exact ⟨b, hmem, by simp [hstu, habs]⟩
    simp only [createBooking] at heq
    repeat' split at heq
    all_goals first
      | (injection heq with h1 h2
         exact Resp.noConfusion h1)
      | exact absurd hsome (by assumption)

/-- Witness for C9: a prior `Pending` booking triggers the duplicate error
with the store unchanged; the successful create in `stA` discharges the
success-direction hypotheses. -/
theorem c9_duplicate_guard_witness :
    createBooking stud reqA 0 (stWith BStatus.Pending 0 1 1)
      = (Resp.duplicateActive, stWith BStatus.Pending 0 1 1) ∧
    (∀ b ∈ stA.bookings, b.student = stud.id → b.status ∉ activeStatuses) :=
  ⟨c9_duplicate_guard.1 stud reqA 0 (stWith BStatus.Pending 0 1 1) (hostelA 1 1)
     ⟨RoomType.Single, 1, 1⟩ rfl (by decide) (by decide) (by decide) (by decide)
     rfl rfl (by decide) (by decide)
     ⟨bookingAt BStatus.Pending 0, by decide, by decide, by decide⟩,
   c9_duplicate_guard.2 stud reqA 0 stA ((createBooking stud reqA 0 stA).2)
     (by decide)⟩



theorem cancel_ok_booking {c : Caller} {bid : Nat} {reason : String} {now : Int}
    {s : St} {b : Booking}
    (hb : findBooking s bid = some b)
    (hpend : b.pricing.pendingAmount = b.pricing.totalAmount - b.pricing.paidAmount)
    (hok : (cancelBooking c bid reason now s).1 = Resp.ok) :
    ∃ b', findBooking (cancelBooking c bid reason now s).2 bid = some b' ∧
      b'.pricing = b.pricing ∧ b'.payment = b.payment ∧
      b'.status = BStatus.Cancelled ∧
      b'.cancellation = some
        ⟨reason, c.role,
         if 0 < b.pricing.paidAmount then calculateRefund b now else 0,
         if 0 < (if 0 < b.pricing.paidAmount then calculateRefund b now else 0) then
           "Pending" else "Not Applicable"⟩ ∧
      b'.cancelledAt = some now := by
  have hbid : b.id = bid := by
    have := List.find?_some hb
    simpa using this
  have hbsome : (s.bookings.find? (fun x => x.id = bid)).isSome := by
    have h : s.bookings.find? (fun x => x.id = bid) = some b := hb
    simp [h]
  have hpr : ({ b.pricing with
      pendingAmount := b.pricing.totalAmount - b.pricing.paidAmount } : BPricing)
      = b.pricing := by
    rw [← hpend]
  simp only [cancelBooking, hb] at hok ⊢
  by_cases h1 : reason = ""
  · rw [if_pos h1] at hok
    simp at hok
  rw [if_neg h1] at hok ⊢
  by_cases h2 : ¬(b.student = c.id ∨ b.owner = c.id ∨ c.role = "Admin")
  · rw [if_pos h2] at hok
    simp at hok
  rw [if_neg h2] at hok ⊢
  by_cases h3 : canBeCancelled b = false
  · rw [if_pos h3] at hok
    simp at hok
  rw [if_neg h3] at hok ⊢
  split at hok
  · exact Resp.noConfusion hok
  next s1 hs1 =>
    obtain ⟨hbk1, hhe, -⟩ := saveBooking_some hs1
    have hfb1 : findBooking s1 bid = some (preSave { b with
        status := BStatus.Cancelled
        cancellation := some
          { reason := reason, cancelledBy := c.role,
            refundAmount := if 0 < b.pricing.paidAmount then calculateRefund b now else 0,
            refundStatus :=
              if 0 < (if 0 < b.pricing.paidAmount then calculateRefund b now else 0) then
                "Pending" else "Not Applicable" }
        cancelledAt := some now }) := by
      unfold findBooking
      rw [hbk1]
      exact findBooking_map_replace hbsome hbid
    split at hok
    · refine ⟨_, hfb1, ?_, ?_, ?_, ?_, ?_⟩ <;> first | rfl | exact hpr
    next hostel hfh =>
      split at hok
      · refine ⟨_, hfb1, ?_, ?_, ?_, ?_, ?_⟩ <;> first | rfl | exact hpr
      next r hfr =>
        split at hok
        · exact Resp.noConfusion hok
        next s2 hs2 =>
          obtain ⟨-, -, hbk2, -⟩ := saveHostel_some hs2
          have hfb2 : findBooking s2 bid = findBooking s1 bid := by
            unfold findBooking
            rw [hbk2]
          rw [hfb2]
          refine ⟨_, hfb1, ?_, ?_, ?_, ?_, ?_⟩ <;> first | rfl | exact hpr

/-- C10: a successful cancel is pricing- and payment-frame-preserving: for
a stored booking whose `pendingAmount` satisfies the persisted invariant
`pendingAmount = totalAmount - paidAmount`, the cancelled booking keeps the
entire pricing sub-document and payment sub-document bit-for-bit, moves to
`Cancelled`, and records the computed refund only inside the cancellation
sub-record (`refundAmount`, with `refundStatus` `Pending` iff the refund is
positive). -/
theorem c10_cancel_frame :
    ∀ (c : Caller) (bid : Nat) (reason : String) (now : Int) (s : St) (b : Booking),
      findBooking s bid = some b →
      b.pricing.pendingAmount = b.pricing.totalAmount - b.pricing.paidAmount →
      (cancelBooking c bid reason now s).1 = Resp.ok →
      ∃ b', findBooking (cancelBooking c bid reason now s).2 bid = some b' ∧
        b'.pricing = b.pricing ∧ b'.payment = b.payment ∧
        b'.status = BStatus.Cancelled ∧
        b'.cancellation = some
          ⟨reason, c.role,
           if 0 < b.pricing.paidAmount then calculateRefund b now else 0,
           if 0 < (if 0 < b.pricing.paidAmount then calculateRefund b now else 0) then
             "Pending" else "Not Applicable"⟩ ∧
        b'.cancelledAt = some now :=
  fun _ _ _ _ _ _ hb hpend hok => cancel_ok_booking hb hpend hok

/-- Witness for C10: cancelling a concrete fully-paid booking (6500 paid,
check-in 20 days out) keeps its pricing and payment records unchanged and
records the 70%-tier refund in the cancellation sub-record. -/
theorem c10_cancel_frame_witness :
    ∃ b', findBooking (cancelBooking stud 5 "moving out" 0
        (stWith BStatus.Paid 6500 2 1)).2 5 = some b' ∧
      b'.pricing = (bookingAt BStatus.Paid 6500).pricing ∧
      b'.payment = (bookingAt BStatus.Paid 6500).payment ∧
      b'.status = BStatus.Cancelled ∧
      b'.cancellation = some
        ⟨"moving out", stud.role,
         if 0 < (bookingAt BStatus.Paid 6500).pricing.paidAmount then
           calculateRefund (bookingAt BStatus.Paid 6500) 0 else 0,
         if 0 < (if 0 < (bookingAt BStatus.Paid 6500).pricing.paidAmount then
             calculateRefund (bookingAt BStatus.Paid 6500) 0 else 0) then
           "Pending" else "Not Applicable"⟩ ∧
      b'.cancelledAt = some 0 :=
  c10_cancel_frame stud 5 "moving out" 0 (stWith BStatus.Paid 6500 2 1)
    (bookingAt BStatus.Paid 6500) (by decide) (by decide) (by decide)



end RoomVerse
